import Mathlib

/-!
Verification of the catalog-enrichment / SKU-resolution core of the
Maria Dolores backend (`main.py`).

Python strings are embedded as lists of Unicode code points (`List Nat`);
missing JSON/dict fields are embedded as `Option`; prices are embedded as
rationals.  The Unicode-dependent pieces of `normalizar_texto`
(`str.upper`, `unicodedata.normalize("NFD", ·)`, category `Mn`) are
modelled faithfully on the Latin-1 letter repertoire plus the combining
diacritical marks block U+0300–U+036F, which covers every character the
feed and the specification exercise.
-/

/-- Code points of a Lean string literal, used to write concrete inputs. -/
def str2cp (s : String) : List Nat := s.data.map Char.toNat

/-- Python `str.strip` whitespace test (ASCII whitespace subset). -/
def isSp (c : Nat) : Bool :=
  c = 32 || c = 9 || c = 10 || c = 11 || c = 12 || c = 13

/-- Python `str.strip`: drop leading and trailing whitespace. -/
def pyStrip (s : List Nat) : List Nat :=
  ((s.dropWhile isSp).reverse.dropWhile isSp).reverse

/-- Python `str.upper` on one code point (ASCII and Latin-1 letters). -/
def upperChar (c : Nat) : Nat :=
  if 97 ≤ c ∧ c ≤ 122 then c - 32
  else if 224 ≤ c ∧ c ≤ 254 ∧ c ≠ 247 then c - 32
  else if c = 255 then 376
  else c

/-- `unicodedata.normalize("NFD", ·)` on one code point: canonical
decomposition of the precomposed Latin-1 uppercase letters (the only
precomposed characters reachable after `upperChar`). -/
def nfdChar (c : Nat) : List Nat :=
  if c = 192 then [65, 768]
  else if c = 193 then [65, 769]
  else if c = 194 then [65, 770]
  else if c = 195 then [65, 771]
  else if c = 196 then [65, 776]
  else if c = 197 then [65, 778]
  else if c = 199 then [67, 807]
  else if c = 200 then [69, 768]
  else if c = 201 then [69, 769]
  else if c = 202 then [69, 770]
  else if c = 203 then [69, 776]
  else if c = 204 then [73, 768]
  else if c = 205 then [73, 769]
  else if c = 206 then [73, 770]
  else if c = 207 then [73, 776]
  else if c = 209 then [78, 771]
  else if c = 210 then [79, 768]
  else if c = 211 then [79, 769]
  else if c = 212 then [79, 770]
  else if c = 213 then [79, 771]
  else if c = 214 then [79, 776]
  else if c = 217 then [85, 768]
  else if c = 218 then [85, 769]
  else if c = 219 then [85, 770]
  else if c = 220 then [85, 776]
  else if c = 221 then [89, 769]
  else if c = 376 then [89, 776]
  else [c]

/-- `unicodedata.category(ch) == "Mn"`: combining diacritical marks. -/
def isMn (c : Nat) : Bool := 768 ≤ c && c ≤ 879

/-- `normalizar_texto` (main.py:41-47): `None`/empty ↦ `""`, else strip,
uppercase, NFD-decompose, and drop combining marks. -/
def normalizar_texto : Option (List Nat) → List Nat
  | none => []
  | some s =>
    if s = [] then []
    else (((pyStrip s).map upperChar).flatMap nfdChar).filter (fun c => !isMn c)

/-- The code points `nfdChar` decomposes (the precomposed Latin-1
uppercase letters and Ÿ). -/
def nfdKeys : List Nat :=
  [192, 193, 194, 195, 196, 197, 199, 200, 201, 202, 203, 204, 205, 206,
   207, 209, 210, 211, 212, 213, 214, 217, 218, 219, 220, 221, 376]

/-- The base letter a code point contributes to a normalized string: its
decomposition with combining marks dropped (itself when it does not
decompose). -/
def nfdBase (c : Nat) : Nat := ((nfdChar c).filter (fun x => !isMn x)).headD c

/-- Python substring test `needle in hay` on code-point lists. -/
def py_in : List Nat → List Nat → Bool
  | n, [] => n.isEmpty
  | n, h :: t => List.isPrefixOf n (h :: t) || py_in n t

/-- A feed image: `imageLabel` and `imageUrl` keys, either may be missing. -/
structure Imagem where
  imageLabel : Option (List Nat)
  imageUrl : Option (List Nat)
deriving DecidableEq

/-- A seller's commercial offer: the three price keys, each may be missing. -/
structure Oferta where
  Price : Option ℚ
  ListPrice : Option ℚ
  PriceWithoutDiscount : Option ℚ
deriving DecidableEq

/-- A seller record: the `commertialOffer` key, possibly missing. -/
structure Vendedor where
  commertialOffer : Option Oferta
deriving DecidableEq

/-- A SKU item nested in a product.  A `sellers` entry may itself be the
JSON null (`sellers[0] or {}` in the source), hence `Option Vendedor`. -/
structure Item where
  Banho : Option (List (List Nat))
  images : Option (List Imagem)
  sellers : Option (List (Option Vendedor))
deriving DecidableEq

/-- A raw feed product record; every key the core consumes, each possibly
missing. -/
structure Produto where
  productReference : Option (List Nat)
  productReferenceCode : Option (List Nat)
  Pedras : Option (List (List Nat))
  items : Option (List Item)
  Colecoes : Option (List (List Nat))
  productId : Option (List Nat)
  productName : Option (List Nat)
  link : Option (List Nat)
deriving DecidableEq

/-- `prod.get("productReference") or prod.get("productReferenceCode") or ""`
(main.py:82): Python `or` falls through on a missing key *and* on a
present-but-empty string. -/
def prod_ref_of (prod : Produto) : List Nat :=
  if (prod.productReference.getD []) ≠ [] then prod.productReference.getD []
  else prod.productReferenceCode.getD []

/-- `escolher_melhor_imagem` (main.py:50-62): first image whose label is
missing or strips to empty; otherwise the first image's URL. -/
def escolher_melhor_imagem (item : Item) : Option (List Nat) :=
  let imagens := item.images.getD []
  match imagens with
  | [] => none
  | img0 :: _ =>
    match imagens.find? (fun img => (pyStrip (img.imageLabel.getD [])).isEmpty) with
    | some img => img.imageUrl
    | none => img0.imageUrl

/-- One output record of `_listar_opcoes_sku_imagem` (main.py:115-122). -/
structure Opcao where
  codigo : List Nat
  banho : Option (List Nat)
  pedra : Option (List Nat)
  image_url : List Nat
deriving DecidableEq

/-- The per-item body of the `_listar_opcoes_sku_imagem` loop
(main.py:97-122): the plating/stone `continue` guards, image selection,
and the `if not image_url: continue` guard. -/
def item_opcao (prod_ref : List Nat) (pedras : List (List Nat))
    (banho_norm pedra_norm : List Nat) (item : Item) : Option Opcao :=
  let banhos := item.Banho.getD []
  let banhos_norm := banhos.map (fun b => normalizar_texto (some b))
  let banho_label := banhos.head?
  let pedras_norm := pedras.map (fun p => normalizar_texto (some p))
  let pedra_label := pedras.head?
  if !banho_norm.isEmpty && !(banhos_norm.any (fun b => py_in banho_norm b)) then
    none
  else if !pedra_norm.isEmpty && !(pedras_norm.any (fun p => py_in pedra_norm p)) then
    none
  else
    match escolher_melhor_imagem item with
    | none => none
    | some image_url =>
      if image_url = [] then none
      else some ⟨prod_ref, banho_label, pedra_label, image_url⟩

/-- The per-product body of the `_listar_opcoes_sku_imagem` loop
(main.py:81-122): reference resolution, the dot-exact / prefix code
filter, and the inner item loop. -/
def prod_opcoes (codigo_norm banho_norm pedra_norm : List Nat)
    (prod : Produto) : List Opcao :=
  let prod_ref := prod_ref_of prod
  let prod_ref_norm := normalizar_texto (some prod_ref)
  if codigo_norm.contains 46 then
    if prod_ref_norm ≠ codigo_norm then []
    else (prod.items.getD []).filterMap
      (item_opcao prod_ref (prod.Pedras.getD []) banho_norm pedra_norm)
  else
    if !(List.isPrefixOf codigo_norm prod_ref_norm) then []
    else (prod.items.getD []).filterMap
      (item_opcao prod_ref (prod.Pedras.getD []) banho_norm pedra_norm)

/-- `_listar_opcoes_sku_imagem` (main.py:65-124).  `banho_norm` is
`normalizar_texto(banho) if banho else ""`, which agrees with
`normalizar_texto banho` since normalization of the empty string is
empty. -/
def listar_opcoes_sku_imagem (produtos : List Produto) (codigo : List Nat)
    (banho pedra : Option (List Nat)) : List Opcao :=
  let codigo_norm := normalizar_texto (some codigo)
  let banho_norm := normalizar_texto banho
  let pedra_norm := normalizar_texto pedra
  produtos.flatMap (prod_opcoes codigo_norm banho_norm pedra_norm)

/-- The summary structure built by `enriquecer_produto` (main.py:286-293);
the Python function also writes these fields onto the product dict, which
an immutable embedding represents by this return value alone. -/
structure Resumo where
  colecao_principal : Option (List Nat)
  imagem_principal : Option (List Nat)
  preco : Option ℚ
  preco_lista : Option ℚ
  preco_sem_desconto : Option ℚ
  percentual_desconto : Option ℚ
deriving DecidableEq

/-- `enriquecer_produto` (main.py:240-303). -/
def enriquecer_produto (prod : Produto) : Resumo :=
  let colecao := match prod.Colecoes with
    | some (c :: _) => some c
    | _ => none
  match prod.items.getD [] with
  | [] => ⟨colecao, none, none, none, none, none⟩
  | item0 :: _ =>
    let imagem := match item0.images.getD [] with
      | [] => none
      | img :: _ => img.imageUrl
    match item0.sellers.getD [] with
    | [] => ⟨colecao, imagem, none, none, none, none⟩
    | s0 :: _ =>
      let offer := (s0.getD ⟨none⟩).commertialOffer.getD ⟨none, none, none⟩
      let preco := offer.Price
      let preco_lista := offer.ListPrice
      let preco_sem_desc := offer.PriceWithoutDiscount
      let percentual_desconto := match preco, preco_lista with
        | some p, some l => if 0 < l then some ((1 - p / l) * 100) else none
        | _, _ => none
      ⟨colecao, imagem, preco, preco_lista, preco_sem_desc, percentual_desconto⟩

/-- One entry of the flattened `skus` pool built by `escolher_sku`
(main.py:153-161). -/
structure SkuEntry where
  produto : Produto
  item : Item
  codigo_norm : List Nat
  banhos_norm : List (List Nat)
  pedras_norm : List (List Nat)
deriving DecidableEq

/-- The flattened `skus` pool of `escolher_sku` (main.py:141-161): one
entry per (product, item) pair, in feed traversal order, carrying the
normalized reference code and tag lists. -/
def skus_de (produtos : List Produto) : List SkuEntry :=
  produtos.flatMap (fun prod =>
    let prod_ref := prod_ref_of prod
    let prod_ref_norm := normalizar_texto (some prod_ref)
    let pedras := prod.Pedras.getD []
    let pedras_norm := pedras.map (fun p => normalizar_texto (some p))
    (prod.items.getD []).map (fun item =>
      let banhos := item.Banho.getD []
      let banhos_norm := banhos.map (fun b => normalizar_texto (some b))
      SkuEntry.mk prod item prod_ref_norm banhos_norm pedras_norm))

/-- `escolher_sku` (main.py:127-198): flatten, code filter, fail-open
plating narrowing, fail-open bidirectional stone narrowing, first
survivor. -/
def escolher_sku (produtos : List Produto) (codigo : List Nat)
    (banho pedra : Option (List Nat)) : Option SkuEntry :=
  let codigo_norm := normalizar_texto (some codigo)
  let banho_norm := normalizar_texto banho
  let pedra_norm := normalizar_texto pedra
  let skus := skus_de produtos
  if skus.isEmpty then none
  else
    let candidatos :=
      if codigo_norm.contains 46 then
        skus.filter (fun s => s.codigo_norm == codigo_norm)
      else
        skus.filter (fun s => List.isPrefixOf codigo_norm s.codigo_norm)
    if candidatos.isEmpty then none
    else
      let candidatos₂ :=
        if !banho_norm.isEmpty then
          let cand_banho := candidatos.filter (fun s =>
            s.banhos_norm.any (fun b => banho_norm == b || py_in banho_norm b))
          if !cand_banho.isEmpty then cand_banho else candidatos
        else candidatos
      let candidatos₃ :=
        if !pedra_norm.isEmpty then
          let cand_pedra := candidatos₂.filter (fun s =>
            s.pedras_norm.any (fun p =>
              pedra_norm == p || py_in pedra_norm p || py_in p pedra_norm))
          if !cand_pedra.isEmpty then cand_pedra else candidatos₂
        else candidatos₂
      candidatos₃.head?

/-- One hexadecimal digit, uppercase, as a code point. -/
def hexDigit (n : Nat) : Nat := if n < 10 then 48 + n else 55 + n

/-- Percent-encode one byte: `%XX`. -/
def pctByte (b : Nat) : List Nat := [37, hexDigit (b / 16), hexDigit (b % 16)]

/-- `urllib.parse.quote(·, safe='')` on one code point: unreserved
characters pass through, everything else is percent-encoded over its
UTF-8 bytes. -/
def quoteChar (c : Nat) : List Nat :=
  if (48 ≤ c ∧ c ≤ 57) ∨ (65 ≤ c ∧ c ≤ 90) ∨ (97 ≤ c ∧ c ≤ 122)
      ∨ c = 95 ∨ c = 46 ∨ c = 45 ∨ c = 126 then [c]
  else if c < 128 then pctByte c
  else if c < 2048 then pctByte (192 + c / 64) ++ pctByte (128 + c % 64)
  else if c < 65536 then
    pctByte (224 + c / 4096) ++ pctByte (128 + c / 64 % 64) ++ pctByte (128 + c % 64)
  else
    pctByte (240 + c / 262144) ++ pctByte (128 + c / 4096 % 64)
      ++ pctByte (128 + c / 64 % 64) ++ pctByte (128 + c % 64)

/-- `quote(image_url, safe='')` (main.py:464). -/
def quote (u : List Nat) : List Nat := u.flatMap quoteChar

/-- One output record of the `/md/sku-image-options` endpoint
(main.py:468-490). -/
structure OpcaoFull where
  productId : Option (List Nat)
  codigo_completo : List Nat
  codigo_busca : List Nat
  banho : Option (List Nat)
  pedra : Option (List Nat)
  nome : Option (List Nat)
  colecao_principal : Option (List Nat)
  link : Option (List Nat)
  preco : Option ℚ
  preco_lista : Option ℚ
  preco_sem_desconto : Option ℚ
  percentual_desconto : Option ℚ
  imagem_principal : Option (List Nat)
  image_url : List Nat
  proxied_url : List Nat
deriving DecidableEq

/-- The per-item body of the endpoint's inline loop (main.py:445-490):
the same guards as `item_opcao` plus assembly of the full record. -/
def item_opcao_endpoint (prod : Produto) (resumo : Resumo)
    (prod_ref : List Nat) (pedras : List (List Nat)) (codigo : List Nat)
    (banho_norm pedra_norm : List Nat) (item : Item) : Option OpcaoFull :=
  let banhos := item.Banho.getD []
  let banhos_norm := banhos.map (fun b => normalizar_texto (some b))
  let banho_label := banhos.head?
  let pedras_norm := pedras.map (fun p => normalizar_texto (some p))
  let pedra_label := pedras.head?
  if !banho_norm.isEmpty && !(banhos_norm.any (fun b => py_in banho_norm b)) then
    none
  else if !pedra_norm.isEmpty && !(pedras_norm.any (fun p => py_in pedra_norm p)) then
    none
  else
    match escolher_melhor_imagem item with
    | none => none
    | some image_url =>
      if image_url = [] then none
      else
        let proxied_url := str2cp "/image-proxy?url=" ++ quote image_url
        some ⟨prod.productId, prod_ref, codigo, banho_label, pedra_label,
          prod.productName, resumo.colecao_principal, prod.link,
          resumo.preco, resumo.preco_lista, resumo.preco_sem_desconto,
          resumo.percentual_desconto, resumo.imagem_principal,
          image_url, proxied_url⟩

/-- The per-product body of the endpoint's inline loop (main.py:426-490):
enrichment, reference resolution, the dot-exact / prefix code filter,
and the inner item loop.  Enrichment only adds keys to the product dict,
so the fields the filter reads are those of the incoming record. -/
def prod_opcoes_endpoint (codigo codigo_norm banho_norm pedra_norm : List Nat)
    (prod : Produto) : List OpcaoFull :=
  let resumo := enriquecer_produto prod
  let prod_ref := prod_ref_of prod
  let prod_ref_norm := normalizar_texto (some prod_ref)
  if codigo_norm.contains 46 then
    if prod_ref_norm ≠ codigo_norm then []
    else (prod.items.getD []).filterMap
      (item_opcao_endpoint prod resumo prod_ref (prod.Pedras.getD [])
        codigo banho_norm pedra_norm)
  else
    if !(List.isPrefixOf codigo_norm prod_ref_norm) then []
    else (prod.items.getD []).filterMap
      (item_opcao_endpoint prod resumo prod_ref (prod.Pedras.getD [])
        codigo banho_norm pedra_norm)

/-- A FastAPI `HTTPException` as raised by the endpoint. -/
structure HTTPErro where
  status_code : Nat
  detail : String
deriving DecidableEq

/-- The outcome of the upstream VTEX fetch, passed to the endpoint body:
a transport failure with its diagnostic, or a (possibly empty) batch of
product records. -/
def FetchResult := Except String (List Produto)

/-- `/md/sku-image-options` (main.py:387-498) as a function of the fetch
outcome: 502 on fetch failure, 404 on an empty batch, the inline
filtering loop, 404 when it yields no options, and the options
otherwise. -/
def sku_image_options (fetch : FetchResult) (codigo : List Nat)
    (banho pedra : Option (List Nat)) : Except HTTPErro (List OpcaoFull) :=
  match fetch with
  | .error e => .error ⟨502, "Erro ao consultar VTEX: " ++ e⟩
  | .ok produtos =>
    if produtos.isEmpty then .error ⟨404, "Nenhum produto encontrado"⟩
    else
      let codigo_norm := normalizar_texto (some codigo)
      let banho_norm := normalizar_texto banho
      let pedra_norm := normalizar_texto pedra
      let opcoes := produtos.flatMap
        (prod_opcoes_endpoint codigo codigo_norm banho_norm pedra_norm)
      if opcoes.isEmpty then
        .error ⟨404, "Nenhuma combinação de imagem encontrada para esses filtros"⟩
      else .ok opcoes

/-!
Claim-side definitions, written from the specification's wording so the
theorems below can compare them with the source embedding.
-/

/-- Reference-code accessor exactly as the specification words it:
`productReference` *if present*, else `productReferenceCode`, else the
empty string. -/
def claim_ref (prod : Produto) : List Nat :=
  match prod.productReference with
  | some r => r
  | none => prod.productReferenceCode.getD []

/-- The specification's code filter: exact match when the normalized base
code contains a dot, prefix match otherwise. -/
def claim_code_filter (codigo_norm prod_ref_norm : List Nat) : Bool :=
  if codigo_norm.contains 46 then prod_ref_norm == codigo_norm
  else List.isPrefixOf codigo_norm prod_ref_norm

/-- The specification's per-axis filter for the list-all-matches path: an
empty-normalizing filter constrains nothing, a non-empty one requires the
filter to be a substring of at least one normalized tag (one-directional,
filter-in-tag). -/
def axis_pass (filtro_norm : List Nat) (tags_norm : List (List Nat)) : Prop :=
  filtro_norm ≠ [] → ∃ t ∈ tags_norm, py_in filtro_norm t = true

instance (f : List Nat) (tags : List (List Nat)) : Decidable (axis_pass f tags) := by
  unfold axis_pass; infer_instance

/-- The image-selection tail of the `_listar_opcoes_sku_imagem` loop body
(main.py:111-122), reached once both semantic filters pass. -/
def imagem_passo (prod_ref : List Nat) (pedras : List (List Nat))
    (item : Item) : Option Opcao :=
  match escolher_melhor_imagem item with
  | none => none
  | some image_url =>
    if image_url = [] then none
    else some ⟨prod_ref, (item.Banho.getD []).head?, pedras.head?, image_url⟩

/-- The image-selection and assembly tail of the endpoint loop body
(main.py:459-490), reached once both semantic filters pass. -/
def imagem_passo_endpoint (prod : Produto) (resumo : Resumo)
    (prod_ref : List Nat) (pedras : List (List Nat)) (codigo : List Nat)
    (item : Item) : Option OpcaoFull :=
  match escolher_melhor_imagem item with
  | none => none
  | some image_url =>
    if image_url = [] then none
    else some ⟨prod.productId, prod_ref, codigo, (item.Banho.getD []).head?,
      pedras.head?, prod.productName, resumo.colecao_principal, prod.link,
      resumo.preco, resumo.preco_lista, resumo.preco_sem_desconto,
      resumo.percentual_desconto, resumo.imagem_principal, image_url,
      str2cp "/image-proxy?url=" ++ quote image_url⟩

/-- The best-single-match resolver exactly as the specification describes
it: code filter over the flattened pool, nothing when that pool is empty,
then a plating narrowing and a bidirectional stone narrowing that are
each discarded when they would leave zero candidates, and finally the
first surviving candidate in feed traversal order. -/
def escolher_sku_spec (produtos : List Produto) (codigo : List Nat)
    (banho pedra : Option (List Nat)) : Option SkuEntry :=
  let codigo_norm := normalizar_texto (some codigo)
  let banho_norm := normalizar_texto banho
  let pedra_norm := normalizar_texto pedra
  let pool :=
    if codigo_norm.contains 46 then
      (skus_de produtos).filter (fun s => s.codigo_norm == codigo_norm)
    else
      (skus_de produtos).filter (fun s => List.isPrefixOf codigo_norm s.codigo_norm)
  if pool.isEmpty then none
  else
    let pool₂ :=
      if banho_norm.isEmpty then pool
      else
        let narrowed := pool.filter (fun s =>
          s.banhos_norm.any (fun b => banho_norm == b || py_in banho_norm b))
        if narrowed.isEmpty then pool else narrowed
    let pool₃ :=
      if pedra_norm.isEmpty then pool₂
      else
        let narrowed := pool₂.filter (fun s =>
          s.pedras_norm.any (fun p =>
            pedra_norm == p || py_in pedra_norm p || py_in p pedra_norm))
        if narrowed.isEmpty then pool₂ else narrowed
    pool₃.head?

/-- Projection of an endpoint output record onto the fields the internal
helper also produces. -/
def projecao (o : OpcaoFull) : Opcao :=
  ⟨o.codigo_completo, o.banho, o.pedra, o.image_url⟩

/-!
Concrete fixtures used by counterexamples and witnesses.
-/

/-- A product record with every field missing. -/
def produto_vazio : Produto := ⟨none, none, none, none, none, none, none, none⟩

/-- A SKU item with every field missing. -/
def item_vazio : Item := ⟨none, none, none⟩

/-- An item with one unlabeled image, plating tag `"Ouro"`. -/
def item_ouro : Item :=
  ⟨some [str2cp "Ouro"], some [⟨none, some (str2cp "http://a/1.jpg")⟩], none⟩

/-- The spec's end-to-end product: reference `MD2116.FO.907`, plating
`["Ouro"]`, stone `["Ágata"]`, one unlabeled image. -/
def prod_ouro_agata : Produto :=
  ⟨some (str2cp "MD2116.FO.907"), none, some [str2cp "Ágata"],
    some [item_ouro], none, none, none, none⟩

/-- A product whose `productReference` is present but empty while
`productReferenceCode` carries the fully-qualified code. -/
def prod_ref_vazia : Produto :=
  ⟨some [], some (str2cp "MD2116.FO.907"), none, some [item_ouro],
    none, none, none, none⟩

/-- The spec's Image Selector example: a labeled image before an
empty-labeled one. -/
def item_swatch : Item :=
  ⟨none, some [⟨some (str2cp "swatch"), some (str2cp "A")⟩,
    ⟨some (str2cp ""), some (str2cp "B")⟩], none⟩

/-- A product with one item, one seller, current price 80, list price
100. -/
def prod_desconto : Produto :=
  ⟨none, none, none,
    some [⟨none, none, some [some ⟨some ⟨some 80, some 100, some 100⟩⟩]⟩],
    none, none, none, none⟩

/-!
Theorems.
-/

/-- C1, counterexample to the claim as stated: with `productReference`
present but empty and the real code under `productReferenceCode`, the
claim's accessor ("`productReference` if present") normalizes to the
empty string, so the claim says the product is not kept for the dotted
base code `MD2116.FO.907`; the code's `or`-chain falls through to
`productReferenceCode` and keeps it, producing an option. -/
theorem c1_code_filter_counterexample :
    listar_opcoes_sku_imagem [prod_ref_vazia] (str2cp "MD2116.FO.907") none none ≠ [] ∧
    claim_code_filter (normalizar_texto (some (str2cp "MD2116.FO.907")))
      (normalizar_texto (some (claim_ref prod_ref_vazia))) = false := by
  decide

/-- C1 (amended): the code filter keeps a product exactly when the
dot-exact / prefix rule holds of the normalized base code and the
normalized reference code taken from `productReference` if present *and
non-empty*, else `productReferenceCode`, else the empty string — in both
the helper and the endpoint loop — and the claim's concrete examples:
`MD2116.FO.907` matches exactly itself and not `MD2116.FO.9070`, while
the dotless `MD2116` matches both `MD2116.FO.907` and `MD2116X`. -/
theorem c1_code_filter :
    (∀ cn bn pn prod, prod_opcoes cn bn pn prod =
      if claim_code_filter cn (normalizar_texto (some (prod_ref_of prod)))
      then (prod.items.getD []).filterMap
        (item_opcao (prod_ref_of prod) (prod.Pedras.getD []) bn pn)
      else []) ∧
    (∀ codigo cn bn pn prod, prod_opcoes_endpoint codigo cn bn pn prod =
      if claim_code_filter cn (normalizar_texto (some (prod_ref_of prod)))
      then (prod.items.getD []).filterMap
        (item_opcao_endpoint prod (enriquecer_produto prod) (prod_ref_of prod)
          (prod.Pedras.getD []) codigo bn pn)
      else []) ∧
    claim_code_filter (normalizar_texto (some (str2cp "MD2116.FO.907")))
      (normalizar_texto (some (str2cp "MD2116.FO.907"))) = true ∧
    claim_code_filter (normalizar_texto (some (str2cp "MD2116.FO.907")))
      (normalizar_texto (some (str2cp "MD2116.FO.9070"))) = false ∧
    claim_code_filter (normalizar_texto (some (str2cp "MD2116")))
      (normalizar_texto (some (str2cp "MD2116.FO.907"))) = true ∧
    claim_code_filter (normalizar_texto (some (str2cp "MD2116")))
      (normalizar_texto (some (str2cp "MD2116X"))) = true := by
  refine ⟨?_, ?_, by decide, by decide, by decide, by decide⟩
  · intro cn bn pn prod
    unfold prod_opcoes claim_code_filter
    split_ifs <;> simp_all
  · intro codigo cn bn pn prod
    unfold prod_opcoes_endpoint claim_code_filter
    split_ifs <;> simp_all

/-- When a filter axis passes, the corresponding `continue` guard of the
loop body evaluates to `false`. -/
theorem guard_eq_false (f : List Nat) (tags : List (List Nat)) (h : axis_pass f tags) :
    (!f.isEmpty && !(tags.any (fun t => py_in f t))) = false := by
  by_cases hf : f = []
  · simp [hf]
  · simp [List.any_eq_true.mpr (h hf)]

/-- When a filter axis fails, the corresponding `continue` guard of the
loop body evaluates to `true`. -/
theorem guard_eq_true (f : List Nat) (tags : List (List Nat)) (h : ¬ axis_pass f tags) :
    (!f.isEmpty && !(tags.any (fun t => py_in f t))) = true := by
  unfold axis_pass at h
  push_neg at h
  rcases h with ⟨hf, hall⟩
  have hany : tags.any (fun t => py_in f t) = false :=
    List.any_eq_false.mpr (fun t ht => by simp [hall t ht])
  simp [hany, List.isEmpty_iff, hf]

/-- C2: in the list-all-matches loop body, an item passes the semantic
filters exactly when each non-empty normalized filter is a substring of
at least one normalized tag on its axis (filter-in-tag only), an
empty-normalizing filter constraining nothing; what remains is image
selection.  Stated for both the helper's and the endpoint's loop body. -/
theorem c2_semantic_filters :
    (∀ prod_ref pedras bn pn item,
      item_opcao prod_ref pedras bn pn item =
        if axis_pass bn ((item.Banho.getD []).map (fun b => normalizar_texto (some b)))
            ∧ axis_pass pn (pedras.map (fun p => normalizar_texto (some p)))
        then imagem_passo prod_ref pedras item
        else none) ∧
    (∀ prod resumo prod_ref pedras codigo bn pn item,
      item_opcao_endpoint prod resumo prod_ref pedras codigo bn pn item =
        if axis_pass bn ((item.Banho.getD []).map (fun b => normalizar_texto (some b)))
            ∧ axis_pass pn (pedras.map (fun p => normalizar_texto (some p)))
        then imagem_passo_endpoint prod resumo prod_ref pedras codigo item
        else none) := by
  constructor
  · intro prod_ref pedras bn pn item
    simp only [item_opcao, imagem_passo]
    by_cases hax : axis_pass bn ((item.Banho.getD []).map (fun b => normalizar_texto (some b)))
        ∧ axis_pass pn (pedras.map (fun p => normalizar_texto (some p)))
    · rw [if_pos hax, guard_eq_false _ _ hax.1, guard_eq_false _ _ hax.2]
      simp
    · rw [if_neg hax]
      rcases not_and_or.mp hax with h | h
      · rw [guard_eq_true _ _ h]
        simp
      · by_cases g1 : (!bn.isEmpty
            && !(((item.Banho.getD []).map (fun b => normalizar_texto (some b))).any
              (fun b => py_in bn b))) = true
        · rw [if_pos g1]
        · rw [guard_eq_true _ _ h, if_neg g1]
          simp
  · intro prod resumo prod_ref pedras codigo bn pn item
    simp only [item_opcao_endpoint, imagem_passo_endpoint]
    by_cases hax : axis_pass bn ((item.Banho.getD []).map (fun b => normalizar_texto (some b)))
        ∧ axis_pass pn (pedras.map (fun p => normalizar_texto (some p)))
    · rw [if_pos hax, guard_eq_false _ _ hax.1, guard_eq_false _ _ hax.2]
      simp
    · rw [if_neg hax]
      rcases not_and_or.mp hax with h | h
      · rw [guard_eq_true _ _ h]
        simp
      · by_cases g1 : (!bn.isEmpty
            && !(((item.Banho.getD []).map (fun b => normalizar_texto (some b))).any
              (fun b => py_in bn b))) = true
        · rw [if_pos g1]
        · rw [guard_eq_true _ _ h, if_neg g1]
          simp


/-- A fail-open narrowing written with negated guards (the source's
shape) equals the same narrowing written with positive guards (the
specification's shape). -/
theorem fail_open_eq {α : Type} (c d : Bool) (x y : α) :
    (if (!c) = true then (if (!d) = true then x else y) else y)
      = (if c = true then y else if d = true then y else x) := by
  cases c <;> cases d <;> rfl

/-- C3: `escolher_sku` computes exactly the specification's pipeline —
code filter over the flattened pool, nothing when that pool is empty, a
fail-open equals-or-substring plating narrowing, a fail-open
bidirectional stone narrowing, and the first surviving candidate in feed
traversal order. -/
theorem c3_escolher_sku :
    ∀ produtos codigo banho pedra,
      escolher_sku produtos codigo banho pedra
        = escolher_sku_spec produtos codigo banho pedra := by
  intro produtos codigo banho pedra
  simp only [escolher_sku, escolher_sku_spec]
  cases h : skus_de produtos with
  | nil => simp
  | cons a t => simp only [List.isEmpty_cons, Bool.false_eq_true, if_false, fail_open_eq]

/-- C4: the enricher's discount percentage is `(1 - preco/preco_lista)*100`
exactly when the first seller's current price is present and its list
price is present and strictly positive, and absent otherwise (list price
zero, negative or missing, current price missing, or no item/seller at
all); the function is total, so no failure propagates.  The spec's
example: price 80 against list price 100 yields 20.0. -/
theorem c4_percentual_desconto :
    (∀ prod, (enriquecer_produto prod).percentual_desconto =
      match (enriquecer_produto prod).preco, (enriquecer_produto prod).preco_lista with
      | some p, some l => if 0 < l then some ((1 - p / l) * 100) else none
      | _, _ => none) ∧
    (enriquecer_produto prod_desconto).percentual_desconto = some 20 := by
  constructor
  · intro prod
    rcases hI : prod.items.getD [] with _ | ⟨item0, rest⟩ <;>
      simp only [enriquecer_produto, hI]
    all_goals rcases hS : item0.sellers.getD [] with _ | ⟨s0, srest⟩ <;>
      simp only [hS]
  · simp only [prod_desconto, enriquecer_produto]
    norm_num

/-- C5: the Image Selector returns nothing for an empty image list,
otherwise it returns the URL field of the first image whose label is
missing or strips to the empty string, and when every image carries a
non-empty stripped label it returns the URL field of the first image in
list order. -/
theorem c5_escolher_melhor_imagem (item : Item) :
    (item.images.getD [] = [] → escolher_melhor_imagem item = none) ∧
    (∀ img, (item.images.getD []).find?
        (fun i => (pyStrip (i.imageLabel.getD [])).isEmpty) = some img →
      escolher_melhor_imagem item = img.imageUrl) ∧
    ((item.images.getD []).all
        (fun i => !(pyStrip (i.imageLabel.getD [])).isEmpty) = true →
      escolher_melhor_imagem item = (item.images.getD []).head?.bind Imagem.imageUrl) := by
  refine ⟨?_, ?_, ?_⟩
  · intro h
    simp only [escolher_melhor_imagem, h]
  · intro img h
    simp only [escolher_melhor_imagem]
    rcases hI : item.images.getD [] with _ | ⟨img0, rest⟩
    · rw [hI] at h
      simp at h
    · rw [hI] at h
      rw [h]
  · intro h
    simp only [escolher_melhor_imagem]
    rcases hI : item.images.getD [] with _ | ⟨img0, rest⟩
    · rfl
    · rw [hI] at h
      have hf : (img0 :: rest).find?
          (fun i => (pyStrip (i.imageLabel.getD [])).isEmpty) = none := by
        rw [List.find?_eq_none]
        intro x hx
        have := List.all_eq_true.mp h x hx
        simp_all
      rw [hf]
      rfl

/-- Witness for C5 at the spec's example: a labeled image before an
empty-labeled one; the selector returns the second URL. -/
theorem c5_escolher_melhor_imagem_witness :
    escolher_melhor_imagem item_swatch = some (str2cp "B") := by
  have h := (c5_escolher_melhor_imagem item_swatch).2.1
    ⟨some (str2cp ""), some (str2cp "B")⟩ (by decide)
  exact h.trans (by decide)

/-- C7: a fetch failure surfaces as a 502 outcome carrying the
collaborator's diagnostic; a reachable non-empty feed whose filtered
option list is empty surfaces as a 404 outcome; and a successful result
is never the empty list, so "not found" is always distinguishable from
both an empty success and "upstream unavailable". -/
theorem c7_not_found_vs_upstream :
    (∀ e codigo banho pedra, sku_image_options (.error e) codigo banho pedra
        = .error ⟨502, "Erro ao consultar VTEX: " ++ e⟩) ∧
    (∀ produtos codigo banho pedra, produtos ≠ [] →
      produtos.flatMap (prod_opcoes_endpoint codigo (normalizar_texto (some codigo))
        (normalizar_texto banho) (normalizar_texto pedra)) = [] →
      sku_image_options (.ok produtos) codigo banho pedra
        = .error ⟨404, "Nenhuma combinação de imagem encontrada para esses filtros"⟩) ∧
    (∀ fetch codigo banho pedra l,
      sku_image_options fetch codigo banho pedra = .ok l → l ≠ []) := by
  refine ⟨?_, ?_, ?_⟩
  · intro e codigo banho pedra
    rfl
  · intro produtos codigo banho pedra hne hopt
    simp [sku_image_options, List.isEmpty_iff, hne, hopt]
  · intro fetch codigo banho pedra l h
    cases fetch with
    | error e => simp [sku_image_options] at h
    | ok produtos =>
      simp only [sku_image_options] at h
      split_ifs at h with h1 h2
      all_goals cases h
      simpa [List.isEmpty_iff] using h2

/-- Witness for C7 at the spec's empty-result scenario: plating filter
`titânio` against a batch whose only plating is `Ouro` produces the 404
outcome. -/
theorem c7_not_found_vs_upstream_witness :
    sku_image_options (.ok [prod_ouro_agata]) (str2cp "MD2116")
      (some (str2cp "titânio")) none
      = .error ⟨404, "Nenhuma combinação de imagem encontrada para esses filtros"⟩ :=
  c7_not_found_vs_upstream.2.1 [prod_ouro_agata] (str2cp "MD2116")
    (some (str2cp "titânio")) none (by decide) (by decide)

/-- C8: malformed records never fail: a fully-empty product yields no
options for any query; a missing item list, stone list, plating list or
image list behaves exactly as the corresponding empty list; and a
reference missing under both names resolves to the empty string. -/
theorem c8_malformed_records :
    (∀ codigo banho pedra,
      listar_opcoes_sku_imagem [produto_vazio] codigo banho pedra = []) ∧
    (∀ cn bn pn (prod : Produto), prod_opcoes cn bn pn {prod with items := none}
        = prod_opcoes cn bn pn {prod with items := some []}) ∧
    (∀ cn bn pn (prod : Produto), prod_opcoes cn bn pn {prod with Pedras := none}
        = prod_opcoes cn bn pn {prod with Pedras := some []}) ∧
    (∀ ref pedras bn pn (item : Item),
      item_opcao ref pedras bn pn {item with Banho := none}
        = item_opcao ref pedras bn pn {item with Banho := some []}) ∧
    (∀ item : Item, escolher_melhor_imagem {item with images := none}
        = escolher_melhor_imagem {item with images := some []}) ∧
    (∀ prod : Produto,
      prod_ref_of {prod with productReference := none, productReferenceCode := none}
        = []) := by
  refine ⟨?_, fun _ _ _ _ => rfl, fun _ _ _ _ => rfl, fun _ _ _ _ _ => rfl,
    fun _ => rfl, fun _ => rfl⟩
  intro codigo banho pedra
  simp only [listar_opcoes_sku_imagem, List.flatMap_cons, List.flatMap_nil,
    List.append_nil]
  simp only [prod_opcoes, produto_vazio, prod_ref_of]
  split_ifs <;> simp

/-- If the per-item loop body emits a record, its image URL is
non-empty. -/
theorem item_opcao_url_ne_nil (ref : List Nat) (pedras : List (List Nat))
    (bn pn : List Nat) (item : Item) (o : Opcao)
    (h : item_opcao ref pedras bn pn item = some o) : o.image_url ≠ [] := by
  simp only [item_opcao] at h
  rcases himg : escolher_melhor_imagem item with _ | u
  · simp [himg] at h
  · simp only [himg] at h
    split_ifs at h <;> simp_all
    subst h
    simp_all

/-- If the endpoint's per-item loop body emits a record, its image URL is
non-empty. -/
theorem item_opcao_endpoint_url_ne_nil (prod : Produto) (resumo : Resumo)
    (ref : List Nat) (pedras : List (List Nat)) (codigo bn pn : List Nat)
    (item : Item) (o : OpcaoFull)
    (h : item_opcao_endpoint prod resumo ref pedras codigo bn pn item = some o) :
    o.image_url ≠ [] := by
  simp only [item_opcao_endpoint] at h
  rcases himg : escolher_melhor_imagem item with _ | u
  · simp [himg] at h
  · simp only [himg] at h
    split_ifs at h <;> simp_all
    subst h
    simp_all

/-- C9: (product, item) pairs for which the Image Selector returns
nothing are silently excluded — the loop bodies return no record for
them — and consequently no emitted record, in the helper output or in a
successful endpoint response, carries an empty image URL. -/
theorem c9_imagem_ausente_excluida :
    (∀ produtos codigo banho pedra o,
      o ∈ listar_opcoes_sku_imagem produtos codigo banho pedra → o.image_url ≠ []) ∧
    (∀ fetch codigo banho pedra l o,
      sku_image_options fetch codigo banho pedra = .ok l → o ∈ l →
        o.image_url ≠ []) ∧
    (∀ ref pedras bn pn item, escolher_melhor_imagem item = none →
      item_opcao ref pedras bn pn item = none) ∧
    (∀ prod resumo ref pedras codigo bn pn item, escolher_melhor_imagem item = none →
      item_opcao_endpoint prod resumo ref pedras codigo bn pn item = none) := by
  refine ⟨?_, ?_, ?_, ?_⟩
  · intro produtos codigo banho pedra o hmem
    simp only [listar_opcoes_sku_imagem] at hmem
    rcases List.mem_flatMap.mp hmem with ⟨prod, _, hpo⟩
    simp only [prod_opcoes] at hpo
    split_ifs at hpo <;> simp at hpo
    all_goals rcases hpo with ⟨item, _, heq⟩
    all_goals exact item_opcao_url_ne_nil _ _ _ _ _ _ heq
  · intro fetch codigo banho pedra l o h hmem
    cases fetch with
    | error e => simp [sku_image_options] at h
    | ok produtos =>
      simp only [sku_image_options] at h
      split_ifs at h with h1 h2
      all_goals cases h
      rcases List.mem_flatMap.mp hmem with ⟨prod, _, hpo⟩
      simp only [prod_opcoes_endpoint] at hpo
      split_ifs at hpo <;> simp at hpo
      all_goals rcases hpo with ⟨item, _, heq⟩
      all_goals exact item_opcao_endpoint_url_ne_nil _ _ _ _ _ _ _ _ _ heq
  · intro ref pedras bn pn item h
    simp [item_opcao, h]
  · intro prod resumo ref pedras codigo bn pn item h
    simp [item_opcao_endpoint, h]

/-- Witness for C9: an item with no image field produces no record. -/
theorem c9_imagem_ausente_excluida_witness :
    item_opcao [] [] [] [] item_vazio = none :=
  c9_imagem_ausente_excluida.2.2.1 [] [] [] [] item_vazio rfl

/-- Projecting the endpoint loop's per-item record onto the shared fields
gives exactly the helper's per-item record. -/
theorem item_opcao_endpoint_proj (prod : Produto) (resumo : Resumo)
    (ref : List Nat) (pedras : List (List Nat)) (codigo bn pn : List Nat)
    (item : Item) :
    (item_opcao_endpoint prod resumo ref pedras codigo bn pn item).map projecao
      = item_opcao ref pedras bn pn item := by
  simp only [item_opcao_endpoint, item_opcao]
  split_ifs with h1 h2
  · rfl
  · rfl
  · rcases himg : escolher_melhor_imagem item with _ | u
    · rfl
    · dsimp only
      split_ifs <;> rfl

/-- Projecting the endpoint loop's per-product output onto the shared
fields gives exactly the helper's per-product output. -/
theorem prod_opcoes_endpoint_proj (codigo cn bn pn : List Nat) (prod : Produto) :
    (prod_opcoes_endpoint codigo cn bn pn prod).map projecao
      = prod_opcoes cn bn pn prod := by
  simp only [prod_opcoes_endpoint, prod_opcoes]
  split_ifs <;> simp [List.map_filterMap, item_opcao_endpoint_proj]

/-- C10: on every input, the endpoint's inline filtering loop and the
internal helper `_listar_opcoes_sku_imagem` select the same (product,
SKU item) pairs, in the same order, with the same reference code,
plating label, stone label and selected image URL. -/
theorem c10_loop_helper_equiv :
    ∀ produtos codigo banho pedra,
      (produtos.flatMap (prod_opcoes_endpoint codigo (normalizar_texto (some codigo))
        (normalizar_texto banho) (normalizar_texto pedra))).map projecao
        = listar_opcoes_sku_imagem produtos codigo banho pedra := by
  intro produtos codigo banho pedra
  simp only [listar_opcoes_sku_imagem]
  rw [List.map_flatMap]
  exact List.flatMap_congr (fun prod _ =>
    prod_opcoes_endpoint_proj codigo (normalizar_texto (some codigo))
      (normalizar_texto banho) (normalizar_texto pedra) prod)

/-- `upperChar` is idempotent: its outputs are never lowercase. -/
theorem upperChar_idem (c : Nat) : upperChar (upperChar c) = upperChar c := by
  unfold upperChar
  split_ifs <;> omega

/-- Every decomposable code point satisfies, decidably, the single-base
contribution property. -/
theorem mem_nfdKeys_ok : ∀ m ∈ nfdKeys,
    (nfdChar m).filter (fun x => !isMn x) = [nfdBase m] ∧
    upperChar (nfdBase m) = nfdBase m ∧ nfdChar (nfdBase m) = [nfdBase m] ∧
    isMn (nfdBase m) = false ∧ isSp (nfdBase m) = false := by decide

/-- A code point outside the decomposition table is NFD-invariant. -/
theorem nfdChar_eq_self {c : Nat} (h : c ∉ nfdKeys) : nfdChar c = [c] := by
  simp only [nfdKeys, List.mem_cons, List.not_mem_nil, or_false, not_or] at h
  obtain ⟨h1, h2, h3, h4, h5, h6, h7, h8, h9, h10, h11, h12, h13, h14, h15,
    h16, h17, h18, h19, h20, h21, h22, h23, h24, h25, h26, h27⟩ := h
  unfold nfdChar
  rw [if_neg h1, if_neg h2, if_neg h3, if_neg h4, if_neg h5, if_neg h6,
    if_neg h7, if_neg h8, if_neg h9, if_neg h10, if_neg h11, if_neg h12,
    if_neg h13, if_neg h14, if_neg h15, if_neg h16, if_neg h17, if_neg h18,
    if_neg h19, if_neg h20, if_neg h21, if_neg h22, if_neg h23, if_neg h24,
    if_neg h25, if_neg h26, if_neg h27]

/-- Whitespace code points are below 33. -/
theorem isSp_eq_false {c : Nat} (h : 33 ≤ c) : isSp c = false := by
  simp only [isSp, Bool.or_eq_false_iff, decide_eq_false_iff_not]
  omega

/-- Uppercasing never produces or destroys a combining mark. -/
theorem isMn_upperChar {c : Nat} (hc : isMn c = false) : isMn (upperChar c) = false := by
  unfold upperChar
  simp only [isMn, Bool.and_eq_false_iff, decide_eq_false_iff_not] at hc ⊢
  split_ifs <;> omega

/-- Uppercasing never produces or destroys whitespace. -/
theorem isSp_upperChar (c : Nat) : isSp (upperChar c) = isSp c := by
  unfold upperChar
  split_ifs with a1 a2 a3
  · rw [isSp_eq_false (by omega), isSp_eq_false (by omega)]
  · rw [isSp_eq_false (by omega), isSp_eq_false (by omega)]
  · rw [isSp_eq_false (by omega), isSp_eq_false (by omega)]
  · rfl

/-- The normalized contribution of a non-mark code point is the single
base letter `nfdBase (upperChar c)`, which is itself fixed by every stage
of the normalization and has the same whitespace status as `c`. -/
theorem normChar_spec (c : Nat) (hc : isMn c = false) :
    (nfdChar (upperChar c)).filter (fun x => !isMn x) = [nfdBase (upperChar c)] ∧
    upperChar (nfdBase (upperChar c)) = nfdBase (upperChar c) ∧
    nfdChar (nfdBase (upperChar c)) = [nfdBase (upperChar c)] ∧
    isMn (nfdBase (upperChar c)) = false ∧
    isSp (nfdBase (upperChar c)) = isSp c := by
  by_cases hk : upperChar c ∈ nfdKeys
  · obtain ⟨h1, h2, h3, h4, h5⟩ := mem_nfdKeys_ok _ hk
    refine ⟨h1, h2, h3, h4, ?_⟩
    rw [h5]
    have hc33 : 33 ≤ c := by
      by_contra hlt
      push_neg at hlt
      have hfix : upperChar c = c := by unfold upperChar; split_ifs <;> omega
      rw [hfix] at hk
      simp only [nfdKeys, List.mem_cons, List.not_mem_nil, or_false] at hk
      omega
    rw [isSp_eq_false hc33]
  · have hd := nfdChar_eq_self hk
    have hmn : isMn (upperChar c) = false := isMn_upperChar hc
    have hb : nfdBase (upperChar c) = upperChar c := by
      unfold nfdBase
      rw [hd]
      simp [hmn]
    refine ⟨?_, ?_, ?_, ?_, ?_⟩ <;> rw [hb]
    · rw [hd]
      simp [hmn]
    · exact upperChar_idem c
    · exact hd
    · exact hmn
    · exact isSp_upperChar c

/-- Dropping leading, uppercasing, decomposing and dropping marks turns a
mark-free string into the per-character map of base letters. -/
theorem normBody_eq_map (u : List Nat) (hu : ∀ c ∈ u, isMn c = false) :
    ((u.map upperChar).flatMap nfdChar).filter (fun x => !isMn x)
      = u.map (fun c => nfdBase (upperChar c)) := by
  induction u with
  | nil => rfl
  | cons c t ih =>
    simp only [List.map_cons, List.flatMap_cons, List.filter_append]
    rw [(normChar_spec c (hu c (by simp))).1, ih (fun d hd => hu d (by simp [hd]))]
    rfl

/-- Membership in a stripped string implies membership in the string. -/
theorem mem_of_mem_pyStrip {c : Nat} {s : List Nat} (h : c ∈ pyStrip s) : c ∈ s := by
  unfold pyStrip at h
  rw [List.mem_reverse] at h
  have h2 := List.Sublist.mem h (List.dropWhile_sublist _)
  rw [List.mem_reverse] at h2
  exact List.Sublist.mem h2 (List.dropWhile_sublist _)

/-- On a mark-free string the normalizer is exactly the per-character
base-letter map over the stripped string. -/
theorem normalizar_eq_map (s : List Nat) (hs : ∀ c ∈ s, isMn c = false) :
    normalizar_texto (some s) = (pyStrip s).map (fun c => nfdBase (upperChar c)) := by
  by_cases h0 : s = []
  · subst h0
    rfl
  · simp only [normalizar_texto, if_neg h0]
    exact normBody_eq_map (pyStrip s) (fun c hc => hs c (mem_of_mem_pyStrip hc))

/-- The head of a `dropWhile` fails the predicate. -/
theorem head?_dropWhile_false {p : Nat → Bool} {l : List Nat} {a : Nat}
    (h : (l.dropWhile p).head? = some a) : p a = false := by
  have hx := List.head?_dropWhile_not p l
  rw [h] at hx
  exact hx

/-- A non-empty `dropWhile` keeps the last element of the list. -/
theorem getLast?_dropWhile_eq {p : Nat → Bool} {l : List Nat}
    (h : l.dropWhile p ≠ []) : (l.dropWhile p).getLast? = l.getLast? := by
  obtain ⟨pre, hpre⟩ := List.dropWhile_suffix p (l := l)
  conv_rhs => rw [← hpre]
  rw [List.getLast?_append]
  rcases hx : (l.dropWhile p).getLast? with _ | a
  · rw [List.getLast?_eq_none_iff] at hx
    exact absurd hx h
  · rfl

/-- The first code point of a stripped string is not whitespace. -/
theorem pyStrip_head {s : List Nat} {a : Nat}
    (h : (pyStrip s).head? = some a) : isSp a = false := by
  unfold pyStrip at h
  rw [List.head?_reverse] at h
  have hne : (s.dropWhile isSp).reverse.dropWhile isSp ≠ [] := by
    intro hz
    rw [hz] at h
    cases h
  rw [getLast?_dropWhile_eq hne, List.getLast?_reverse] at h
  exact head?_dropWhile_false h

/-- The last code point of a stripped string is not whitespace. -/
theorem pyStrip_last {s : List Nat} {a : Nat}
    (h : (pyStrip s).getLast? = some a) : isSp a = false := by
  unfold pyStrip at h
  rw [List.getLast?_reverse] at h
  exact head?_dropWhile_false h

/-- Stripping is the identity on a string whose two boundary code points
are not whitespace. -/
theorem pyStrip_eq_self {t : List Nat}
    (h1 : ∀ a, t.head? = some a → isSp a = false)
    (h2 : ∀ a, t.getLast? = some a → isSp a = false) : pyStrip t = t := by
  unfold pyStrip
  have e1 : t.dropWhile isSp = t := by
    cases t with
    | nil => rfl
    | cons a t' => exact List.dropWhile_cons_of_neg (by simp [h1 a rfl])
  rw [e1]
  have e2 : t.reverse.dropWhile isSp = t.reverse := by
    cases hr : t.reverse with
    | nil => rfl
    | cons b r =>
      have hb : t.getLast? = some b := by
        rw [← List.head?_reverse, hr]
        rfl
      exact List.dropWhile_cons_of_neg (by simp [h2 b hb])
  rw [e2, List.reverse_reverse]

/-- The normalizer is the identity on a string every code point of which
is fixed by uppercasing and NFD, is not a mark, and which is already
stripped. -/
theorem normalizar_fixed (t : List Nat)
    (hup : ∀ d ∈ t, upperChar d = d) (hnf : ∀ d ∈ t, nfdChar d = [d])
    (hmn : ∀ d ∈ t, isMn d = false) (hstrip : pyStrip t = t) :
    normalizar_texto (some t) = t := by
  by_cases h0 : t = []
  · rw [h0]
    rfl
  · simp only [normalizar_texto, if_neg h0, hstrip]
    have e1 : t.map upperChar = t := by
      rw [List.map_congr_left hup, List.map_id']
    rw [e1]
    have e2 : t.flatMap nfdChar = t := by
      calc t.flatMap nfdChar = t.flatMap (fun d => [d]) := List.flatMap_congr hnf
        _ = t := List.flatMap_singleton' _
    rw [e2]
    exact List.filter_eq_self.mpr (fun d hd => by simp [hmn d hd])

/-- C6 (amended): the Text Normalizer is idempotent on every string free
of combining-mark code points (on a string with a combining mark adjacent
to boundary whitespace, dropping the mark can expose whitespace that only
a second pass would strip); absent and empty input normalize to the empty
string; and `"ÁGATA"` normalizes to `"AGATA"`. -/
theorem c6_normalizar_idempotente (s : List Nat) (hs : ∀ c ∈ s, isMn c = false) :
    normalizar_texto (some (normalizar_texto (some s))) = normalizar_texto (some s) ∧
    normalizar_texto none = [] ∧
    normalizar_texto (some []) = [] ∧
    normalizar_texto (some (str2cp "ÁGATA")) = str2cp "AGATA" := by
  refine ⟨?_, rfl, rfl, by decide⟩
  have hmemu : ∀ c ∈ pyStrip s, isMn c = false :=
    fun c hc => hs c (mem_of_mem_pyStrip hc)
  have hmap := normalizar_eq_map s hs
  rw [hmap]
  have helem : ∀ d ∈ (pyStrip s).map (fun c => nfdBase (upperChar c)),
      upperChar d = d ∧ nfdChar d = [d] ∧ isMn d = false := by
    intro d hd
    rcases List.mem_map.mp hd with ⟨c, hc, rfl⟩
    obtain ⟨_, h2, h3, h4, _⟩ := normChar_spec c (hmemu c hc)
    exact ⟨h2, h3, h4⟩
  apply normalizar_fixed
  · exact fun d hd => (helem d hd).1
  · exact fun d hd => (helem d hd).2.1
  · exact fun d hd => (helem d hd).2.2
  · apply pyStrip_eq_self
    · intro a ha
      rw [List.head?_map] at ha
      rcases hu0 : (pyStrip s).head? with _ | b
      · rw [hu0] at ha
        cases ha
      · rw [hu0] at ha
        have hbsp : isSp b = false := pyStrip_head hu0
        have hbmn : isMn b = false :=
          hmemu b (List.mem_of_mem_head? (Option.mem_def.mpr hu0))
        obtain ⟨_, _, _, _, h5⟩ := normChar_spec b hbmn
        have hab : nfdBase (upperChar b) = a := Option.some_inj.mp ha
        rw [← hab, h5, hbsp]
    · intro a ha
      rw [List.getLast?_map] at ha
      rcases hu0 : (pyStrip s).getLast? with _ | b
      · rw [hu0] at ha
        cases ha
      · rw [hu0] at ha
        have hbsp : isSp b = false := pyStrip_last hu0
        have hbmn : isMn b = false :=
          hmemu b (List.mem_of_getLast?_eq_some hu0)
        obtain ⟨_, _, _, _, h5⟩ := normChar_spec b hbmn
        have hab : nfdBase (upperChar b) = a := Option.some_inj.mp ha
        rw [← hab, h5, hbsp]

/-- C6, counterexample to idempotence over all strings: a combining acute
accent after trailing whitespace is dropped by normalization, exposing a
trailing space that a second normalization strips. -/
theorem c6_idempotencia_counterexample :
    ¬ (normalizar_texto (some (normalizar_texto (some [120, 32, 769])))
        = normalizar_texto (some [120, 32, 769])) := by decide

/-- Witness for C6 at a concrete mark-free string with whitespace and an
accented letter. -/
theorem c6_normalizar_idempotente_witness :
    normalizar_texto (some (normalizar_texto (some (str2cp " Ágata "))))
        = normalizar_texto (some (str2cp " Ágata ")) ∧
    normalizar_texto none = [] ∧
    normalizar_texto (some []) = [] ∧
    normalizar_texto (some (str2cp "ÁGATA")) = str2cp "AGATA" :=
  c6_normalizar_idempotente (str2cp " Ágata ") (by decide)
